import Mathlib

/-!
Verification development for the criterion/target/range evaluation engine of
the iamcompact-vetting repository.

The Python source is shallowly embedded: floats are modelled as rationals,
fallible code (raising exceptions) is modelled with Except/Option, and
stateful property setters are modelled as explicit state transformers that
also report which exception, if any, was raised.
-/

namespace IamCompactVetting

/-- Exception kinds raised by the target classes
(targets/target_classes.py): a plain `ValueError`, the `InvalidRangeError`
subclass, and the `UnitNotSpecifiedError` subclass.  A `ZeroDivisionError`
from the distance functions is modelled separately via `Option`. -/
inductive CTRError where
  | valueError
  | invalidRange
  | unitNotSpecified
deriving Repr, DecidableEq

/-- Embedding of `CriterionTargetRange._distance_func_without_range`:
`return value - target`. -/
def distance_func_without_range (value target : ℚ) : ℚ :=
  value - target

/-- Embedding of `CriterionTargetRange._distance_func_with_range`:
`if value > target: return (value - target) / (range[1] - target)
else: return (target - value) / (target - range[0])`.
Python float division raises `ZeroDivisionError` on a zero denominator,
modelled here as `none`. -/
def distance_func_with_range (value target : ℚ) (range : ℚ × ℚ) :
    Option ℚ :=
  if value > target then
    if range.2 - target = 0 then none
    else some ((value - target) / (range.2 - target))
  else
    if target - range.1 = 0 then none
    else some ((target - value) / (target - range.1))

/-- State of a `CriterionTargetRange` object (targets/target_classes.py).
`criterion_unit` models `getattr(criterion, 'unit', None)`, the only part of
the bound `Criterion` object that the class itself consults. -/
structure CriterionTargetRange where
  criterion_unit : Option String
  name : String
  target : ℚ
  range : Option (ℚ × ℚ)
  unit : Option String
  value_unit : Option String
  convert_value_units : Option Bool
  convert_input_units : Bool
deriving Repr, DecidableEq

/-- Embedding of `CriterionTargetRange._default_distance_func`: dispatches on
whether `self.range` is set. -/
def default_distance_func (c : CriterionTargetRange) (value : ℚ) :
    Option ℚ :=
  match c.range with
  | none => some (distance_func_without_range value c.target)
  | some r => distance_func_with_range value c.target r

/-- Embedding of `CriterionTargetRange._check_unit_specs` as called with all
parameters explicitly given (as done from `_set_unit_specs` during
`__init__`).  Note that the source checks `criterion.unit` but never
`value_unit`, although the `value_unit` parameter is accepted. -/
def check_unit_specs (criterion_unit : Option String)
    (unit : Option String) (value_unit : Option String)
    (convert_value_units : Bool) (convert_input_units : Bool) :
    Except CTRError Unit :=
  if convert_value_units ∧ unit = none then
    Except.error CTRError.unitNotSpecified
  else if convert_value_units ∧ criterion_unit = none then
    Except.error CTRError.unitNotSpecified
  else if convert_input_units ∧ unit = none then
    Except.error CTRError.unitNotSpecified
  else Except.ok ()

/-- Embedding of the `range` property setter validation: raises `ValueError`
if `value[0] > value[1]`, `InvalidRangeError` if the current target is
outside the new range. -/
def range_check (target : ℚ) (value : Option (ℚ × ℚ)) :
    Except CTRError Unit :=
  match value with
  | none => Except.ok ()
  | some (lo, hi) =>
    if lo > hi then Except.error CTRError.valueError
    else if target < lo ∨ target > hi then
      Except.error CTRError.invalidRange
    else Except.ok ()

/-- Embedding of `CriterionTargetRange.__init__`.  Follows the source order:
`self.target = target` (no check fires because `self._range` is still the
class default `None`), then `self.range = range` (validates), then the
`convert_value_units` default inference, then `_set_unit_specs` with
`check_specs=True`. -/
def CriterionTargetRange.init (criterion_unit : Option String)
    (criterion_name : String) (target : ℚ) (range : Option (ℚ × ℚ))
    (unit : Option String) (name : Option String)
    (convert_value_units : Option Bool) (convert_input_units : Bool)
    (value_unit : Option String) :
    Except CTRError CriterionTargetRange := do
  let _ ← range_check target range
  let cvu : Bool :=
    match convert_value_units with
    | some b => b
    | none => unit.isSome && criterion_unit.isSome
  let _ ← check_unit_specs criterion_unit unit value_unit cvu
    convert_input_units
  Except.ok
    { criterion_unit := criterion_unit
      name := name.getD criterion_name
      target := target
      range := range
      unit := unit
      value_unit := value_unit
      convert_value_units := some cvu
      convert_input_units := convert_input_units }

/-- Embedding of the `target` property setter.  Returns the exception raised
(if any) together with the post-state; the source validates against the
current range before the assignment `self._target = value`, so on an
exception the state is unchanged. -/
def target_set (c : CriterionTargetRange) (value : ℚ) :
    Option CTRError × CriterionTargetRange :=
  match c.range with
  | some (lo, hi) =>
    if value < lo ∨ value > hi then (some CTRError.valueError, c)
    else (none, { c with target := value })
  | none => (none, { c with target := value })

/-- Embedding of the `range` property setter.  Both validations precede the
assignment `self._range = value`, so on an exception the state is
unchanged. -/
def range_set (c : CriterionTargetRange) (value : Option (ℚ × ℚ)) :
    Option CTRError × CriterionTargetRange :=
  match value with
  | some (lo, hi) =>
    if lo > hi then (some CTRError.valueError, c)
    else if c.target < lo ∨ c.target > hi then
      (some CTRError.invalidRange, c)
    else (none, { c with range := value })
  | none => (none, { c with range := value })

/-- Embedding of `CriterionTargetRange.in_range`: raises `ValueError` when
`self.range` is `None`, otherwise returns
`self.range[0] <= value <= self.range[1]`. -/
def in_range (c : CriterionTargetRange) (value : ℚ) :
    Except CTRError Bool :=
  match c.range with
  | none => Except.error CTRError.valueError
  | some (lo, hi) => Except.ok (decide (lo ≤ value ∧ value ≤ hi))

/-- Embedding of the `AggDimOrder` enum
(iam/timeseries_criteria_core.py). -/
inductive AggDimOrder where
  | time_first
  | region_first
deriving Repr, DecidableEq

/-- Row of the comparison series handled by `TimeseriesRefCriterion`: index
levels are a model-scenario key, the region and the time (year); a level
that has been aggregated away is `none`. -/
structure TSRow where
  mskey : String
  region : Option String
  time : Option Nat
  value : ℚ
deriving Repr, DecidableEq

/-- Pandas `s.groupby(keys).agg(func)`: each distinct key (here in order of
first appearance; pandas sorts, which only permutes the result rows) is
mapped to the aggregation of its group's values. -/
def groupAgg {κ : Type} [DecidableEq κ] (agg : List ℚ → ℚ)
    (key : TSRow → κ) (rows : List TSRow) : List (κ × ℚ) :=
  ((rows.map key).dedup).map
    (fun k => (k, agg ((rows.filter (fun r => decide (key r = k))).map
      TSRow.value)))

/-- Embedding of `TimeseriesRefCriterion._aggregate_time`: groups by all
index levels except TIME and applies the time aggregation function, so the
time level is collapsed. -/
def aggregate_time (time_agg : List ℚ → ℚ) (s : List TSRow) : List TSRow :=
  (groupAgg time_agg (fun r => (r.mskey, r.region)) s).map
    (fun kv => ⟨kv.1.1, kv.1.2, none, kv.2⟩)

/-- Embedding of `TimeseriesRefCriterion._aggregate_region`: groups by all
index levels except REGION and applies the region aggregation function, so
the region level is collapsed. -/
def aggregate_region (region_agg : List ℚ → ℚ) (s : List TSRow) :
    List TSRow :=
  (groupAgg region_agg (fun r => (r.mskey, r.time)) s).map
    (fun kv => ⟨kv.1.1, none, kv.1.2, kv.2⟩)

/-- Embedding of `TimeseriesRefCriterion.aggregate_time_and_region` exactly
as written in the source: under `REGION_FIRST` it returns
`self._aggregate_region(self._aggregate_time(s))` (so `_aggregate_time`
runs first), and under `TIME_FIRST` it returns
`self._aggregate_time(self._aggregate_region(s))`. -/
def aggregate_time_and_region (agg_dim_order : AggDimOrder)
    (region_agg time_agg : List ℚ → ℚ) (s : List TSRow) : List TSRow :=
  match agg_dim_order with
  | AggDimOrder.region_first =>
    aggregate_region region_agg (aggregate_time time_agg s)
  | AggDimOrder.time_first =>
    aggregate_time time_agg (aggregate_region region_agg s)

/-- Modelled from the spec's words, for comparison with the source
definition `aggregate_time_and_region`: "with agg_dim_order equal to
AggDimOrder.REGION_FIRST (the default), aggregate_time_and_region (and
hence get_values) reduces the comparison series over the region dimension
first and then over the time dimension, and with AggDimOrder.TIME_FIRST it
reduces over time first and then over regions". -/
def spec_aggregate_time_and_region (agg_dim_order : AggDimOrder)
    (region_agg time_agg : List ℚ → ℚ) (s : List TSRow) : List TSRow :=
  match agg_dim_order with
  | AggDimOrder.region_first =>
    aggregate_time time_agg (aggregate_region region_agg s)
  | AggDimOrder.time_first =>
    aggregate_region region_agg (aggregate_time time_agg s)

/-- Embedding of the pandas `SeriesGroupBy.mean` reduction applied to one
group's values. -/
def groupMean (l : List ℚ) : ℚ := l.sum / (l.length : ℚ)

/-- Embedding of the pandas `SeriesGroupBy.max` reduction applied to one
group's values (groups are nonempty in all uses here). -/
def groupMax (l : List ℚ) : ℚ :=
  match l with
  | [] => 0
  | h :: t => t.foldl max h

/-- Row of a `pyam.IamDataFrame`: an association list from dimension name to
value (years rendered as strings), plus the numeric value. -/
structure IamRow where
  index : List (String × String)
  value : ℚ
deriving Repr, DecidableEq

/-- Minimal model of a `pyam.IamDataFrame`: its dimension (index level)
names and its data rows. -/
structure IamDF where
  dimensions : List String
  rows : List IamRow
deriving Repr, DecidableEq

/-- Value of a row along one dimension. -/
def dimVal (r : IamRow) (d : String) : String :=
  (r.index.lookup d).getD ""

/-- Embedding of the attribute access `getattr(df, dim)`: the distinct
values of the dataframe along a dimension (pyam sorts them; only the set
matters here). -/
def dimVals (df : IamDF) (d : String) : List String :=
  (df.rows.map (fun r => dimVal r d)).dedup

/-- Replace the value along dimension `d` in a row index. -/
def setDim (idx : List (String × String)) (d v : String) :
    List (String × String) :=
  idx.map (fun p => if p.1 = d then (d, v) else p)

/-- Embedding of `df.rename({dim: {old: new}})`: rows whose value along
`dim` equals `old` get the new value. -/
def rename_dim (df : IamDF) (d old new : String) : IamDF :=
  ⟨df.dimensions,
    df.rows.map (fun r =>
      if dimVal r d = old then ⟨setDim r.index d new, r.value⟩ else r)⟩

/-- The broadcast dimensions computed in
`IamDataFrameTimeseriesVetter._make_one_comparison`: dimensions of the data
that are neither match dimensions nor the unit dimension. -/
def broadcastDims (data : IamDF) (match_dims : List String) : List String :=
  data.dimensions.filter (fun d => !(match_dims.contains d) && d != "unit")

/-- Embedding of the check loop over `target_broadcast_dim_values` in
`_make_one_comparison`: for each broadcast dimension, the target must have
exactly one distinct value; more than one raises `ValueError`, an empty one
raises `IndexError` (from the access `_val[0]`). -/
def single_dim_values (target : IamDF) :
    List String → Except String (List (String × String))
  | [] => Except.ok []
  | d :: rest =>
    match dimVals target d with
    | [] => Except.error "IndexError"
    | [v] =>
      match single_dim_values target rest with
      | Except.error e => Except.error e
      | Except.ok r => Except.ok ((d, v) :: r)
    | _ :: _ :: _ =>
      Except.error "Target has more than one unique value in dimension"

/-- The list of renamed copies of the target that `_make_one_comparison`
passes to `pyam.concat`: one copy per broadcast dimension and per value of
the data along that dimension, with the target's single value along that
dimension renamed to the data's value. -/
def broadcast_pieces (data target : IamDF) (match_dims : List String)
    (vals : List (String × String)) : List IamDF :=
  ((broadcastDims data match_dims).map (fun d =>
    (dimVals data d).map (fun v =>
      rename_dim target d ((vals.lookup d).getD "") v))).flatten

/-- Embedding of the broadcasting portion of
`IamDataFrameTimeseriesVetter._make_one_comparison` (the computation of
`target_broadcasted`): after checking that the target has a single value
along each broadcast dimension, a renamed copy of the target is produced
for each broadcast dimension and each of the data's values along it, and
the copies are concatenated (`pyam.concat` raises on an empty list). -/
def target_broadcast (data target : IamDF) (match_dims : List String) :
    Except String IamDF :=
  match single_dim_values target (broadcastDims data match_dims) with
  | Except.error e => Except.error e
  | Except.ok vals =>
    if (broadcast_pieces data target match_dims vals).isEmpty then
      Except.error "No objects to concatenate"
    else
      Except.ok ⟨target.dimensions,
        ((broadcast_pieces data target match_dims vals).map
          IamDF.rows).flatten⟩

/-- Value of `pyam.IamDataFrame.unit_mapping` for one variable: a plain
string when the variable carries a single unit, otherwise a list. -/
inductive UnitVal where
  | str (u : String)
  | list (us : List String)
deriving Repr, DecidableEq

/-- The distinct units carried by one variable of a dataframe. -/
def unitsOf (df : IamDF) (v : String) : List String :=
  ((df.rows.filter (fun r => decide (dimVal r "variable" = v))).map
    (fun r => dimVal r "unit")).dedup

/-- Package a unit list the way `unit_mapping` does. -/
def mkUnitVal (us : List String) : UnitVal :=
  match us with
  | [u] => UnitVal.str u
  | _ => UnitVal.list us

/-- Embedding of the `pyam.IamDataFrame.unit_mapping` property: mapping from
each variable to its unit(s). -/
def unit_mapping (df : IamDF) : List (String × UnitVal) :=
  (dimVals df "variable").map (fun v => (v, mkUnitVal (unitsOf df v)))

/-- Embedding of `df.filter(variable=vars, keep=False)`. -/
def filter_out_vars (df : IamDF) (vars : List String) : IamDF :=
  ⟨df.dimensions,
    df.rows.filter (fun r => !(vars.contains (dimVal r "variable")))⟩

/-- Embedding of `df.filter(variable=v)`. -/
def filter_var (df : IamDF) (v : String) : IamDF :=
  ⟨df.dimensions,
    df.rows.filter (fun r => decide (dimVal r "variable" = v))⟩

/-- Embedding of `df.convert_unit(source, to=targetu)`: rows carrying unit
`source` are relabelled and their values converted.  The numeric conversion
itself is performed by pint, an external collaborator, passed here as the
function `convert`. -/
def convert_unit (convert : ℚ → String → String → ℚ) (df : IamDF)
    (source targetu : String) : IamDF :=
  ⟨df.dimensions,
    df.rows.map (fun r =>
      if dimVal r "unit" = source then
        ⟨setDim r.index "unit" targetu, convert r.value source targetu⟩
      else r)⟩

/-- The `differing_vars` list computed by
`pyam_helpers.make_consistent_units`: variables of `df` whose unit mapping
differs from that of `match_df` (variables absent from `match_df` never
differ, via the `.get(_var, _unit)` default). -/
def differing_vars (df match_df : IamDF) : List String :=
  ((unit_mapping df).filter (fun p =>
    decide (p.2 ≠ ((unit_mapping match_df).lookup p.1).getD p.2))).map
    Prod.fst

/-- One iteration of the conversion loop of
`pyam_helpers.make_consistent_units` for a differing variable: if the
variable has a single unit in `match_df`, each of its source units in `df`
is converted to it; a list-valued target unit raises
`NotImplementedError`. -/
def convert_var (convert : ℚ → String → String → ℚ)
    (df match_df : IamDF) (v : String) : Except String (List IamRow) :=
  match (unit_mapping match_df).lookup v with
  | some (UnitVal.str tu) =>
    Except.ok (((match (unit_mapping df).lookup v with
      | some (UnitVal.str s) => [s]
      | some (UnitVal.list l) => l
      | none => ([] : List String)).map (fun s =>
        (convert_unit convert (filter_var df v) s tu).rows)).flatten)
  | some (UnitVal.list _) => Except.error "NotImplementedError"
  | none => Except.error "KeyError"

/-- Embedding of `pyam_helpers.make_consistent_units`: variables of `df`
whose units differ from `match_df` are converted per source unit, and the
untouched rows and the converted rows are concatenated. -/
def make_consistent_units (convert : ℚ → String → String → ℚ)
    (df match_df : IamDF) : Except String IamDF :=
  match (differing_vars df match_df).mapM (convert_var convert df match_df)
    with
  | Except.error e => Except.error e
  | Except.ok converted =>
    Except.ok ⟨df.dimensions,
      (filter_out_vars df (differing_vars df match_df)).rows
        ++ converted.flatten⟩

/-- Embedding of `pyam_helpers.as_pandas_series`: the underlying data rows
of the dataframe. -/
def as_pandas_series (df : IamDF) : List IamRow := df.rows

/-- Embedding of the `pyam_series_comparison` decorator
(iam/timeseries_criteria_core.py): the wrapped function first makes the
units of its first argument consistent with its second (when `match_units`
is set) and then applies the raw series comparison. -/
def pyam_series_comparison {α : Type}
    (func : List IamRow → List IamRow → α) (match_units : Bool)
    (convert : ℚ → String → String → ℚ) (iamdf1 iamdf2 : IamDF) :
    Except String α :=
  match (if match_units then make_consistent_units convert iamdf1 iamdf2
    else Except.ok iamdf1) with
  | Except.error e => Except.error e
  | Except.ok df1 =>
    Except.ok (func (as_pandas_series df1) (as_pandas_series iamdf2))

/-- Value produced by the ratio comparison: a finite rational or the
`np.inf` sentinel. -/
inductive RatioValue where
  | fin (q : ℚ)
  | posInf
deriving Repr, DecidableEq

/-- Modelled from the spec: the pointwise behaviour of
`get_ratio_comparison`, whose defining module
(`pea_timeseries/timeseries_criteria_core.py`) is not included under src/
(only its import and call in `targets/iamcompact_harmonization_targets.py`
are).  Spec section 4.1: "result = subject / reference, except: where
reference is exactly zero and subject is non-zero, emit a caller-supplied
divide-by-zero sentinel (default: positive infinity); where both are
exactly zero, emit a caller-supplied zero-over-zero sentinel (default:
1.0)". -/
def get_ratio_comparison (div_by_zero_value zero_by_zero_value : RatioValue)
    (subject reference : ℚ) : RatioValue :=
  if reference = 0 then
    if subject = 0 then zero_by_zero_value else div_by_zero_value
  else RatioValue.fin (subject / reference)

/-- Embedding of the default `comparison_function` constructed in
`IamCompactHarmonizationRatioCriterion.__init__`, which calls
`get_ratio_comparison` with `np.inf` as the divide-by-zero value and `1.0`
as the zero-by-zero value. -/
def iamcompact_harmonization_comparison (subject reference : ℚ) :
    RatioValue :=
  get_ratio_comparison RatioValue.posInf (RatioValue.fin 1) subject reference

/-- A concrete `CriterionTargetRange` state used to instantiate theorems
with hypotheses. -/
def exampleCTR : CriterionTargetRange :=
  ⟨none, "c", 7, some (0, 10), none, none, some false, false⟩

/-- A concrete comparison series on a 2 regions x 2 years grid with values
1, 9 / 9, 1, used for the aggregation-order counterexample. -/
def exampleSeries : List TSRow :=
  [⟨"m|s", some "r1", some 2020, 1⟩, ⟨"m|s", some "r1", some 2030, 9⟩,
   ⟨"m|s", some "r2", some 2020, 9⟩, ⟨"m|s", some "r2", some 2030, 1⟩]

/-- A concrete subject dataframe with two models, used to instantiate the
broadcast theorems. -/
def exampleData : IamDF :=
  ⟨["model", "scenario", "region", "variable", "unit", "year"],
   [⟨[("model", "m1"), ("scenario", "s1"), ("region", "R"),
      ("variable", "V"), ("unit", "EJ"), ("year", "2020")], 3⟩,
    ⟨[("model", "m2"), ("scenario", "s1"), ("region", "R"),
      ("variable", "V"), ("unit", "EJ"), ("year", "2020")], 4⟩]⟩

/-- A concrete reference dataframe with a single value along every
dimension. -/
def exampleTarget : IamDF :=
  ⟨["model", "scenario", "region", "variable", "unit", "year"],
   [⟨[("model", "tm"), ("scenario", "ts"), ("region", "R"),
      ("variable", "V"), ("unit", "EJ"), ("year", "2020")], 5⟩]⟩

/-- A concrete reference dataframe with two distinct models, ambiguous for
broadcasting over the model dimension. -/
def exampleTargetAmbiguous : IamDF :=
  ⟨["model", "scenario", "region", "variable", "unit", "year"],
   [⟨[("model", "tm"), ("scenario", "ts"), ("region", "R"),
      ("variable", "V"), ("unit", "EJ"), ("year", "2020")], 5⟩,
    ⟨[("model", "tm2"), ("scenario", "ts"), ("region", "R"),
      ("variable", "V"), ("unit", "EJ"), ("year", "2020")], 6⟩]⟩

/-- The match dimensions used with the example dataframes, leaving model
and scenario as broadcast dimensions. -/
def exampleMatchDims : List String := ["region", "variable", "year"]

/-- The broadcast reference produced from `exampleData` and
`exampleTarget`: the target replicated to models m1 and m2 and to scenario
s1. -/
def exampleBroadcastResult : IamDF :=
  ⟨["model", "scenario", "region", "variable", "unit", "year"],
   [⟨[("model", "m1"), ("scenario", "ts"), ("region", "R"),
      ("variable", "V"), ("unit", "EJ"), ("year", "2020")], 5⟩,
    ⟨[("model", "m2"), ("scenario", "ts"), ("region", "R"),
      ("variable", "V"), ("unit", "EJ"), ("year", "2020")], 5⟩,
    ⟨[("model", "tm"), ("scenario", "s1"), ("region", "R"),
      ("variable", "V"), ("unit", "EJ"), ("year", "2020")], 5⟩]⟩

section Theorems

/-- C1: for a `CriterionTargetRange` constructed with target 10, range
(5, 15) and no `distance_func`, the default distance function returns 0 at
the target and +1 at the upper bound, and without a range it returns
`value - target`, as the claim states; but at the lower bound it returns
+1, not the -1 stated by the claim and by the source's own docstring
(the code computes `(target - value) / (target - range[0])`, which is
+1 at `value = range[0]`). -/
theorem C1_default_distance_function :
    CriterionTargetRange.init none "c" 10 (some (5, 15)) none none none
      false none
      = Except.ok ⟨none, "c", 10, some (5, 15), none, none, some false,
          false⟩ ∧
    default_distance_func
      ⟨none, "c", 10, some (5, 15), none, none, some false, false⟩ 10
      = some 0 ∧
    default_distance_func
      ⟨none, "c", 10, some (5, 15), none, none, some false, false⟩ 15
      = some 1 ∧
    default_distance_func
      ⟨none, "c", 10, some (5, 15), none, none, some false, false⟩ 5
      = some 1 ∧
    some (1 : ℚ) ≠ some (-1 : ℚ) ∧
    CriterionTargetRange.init none "c" 10 none none none none false none
      = Except.ok ⟨none, "c", 10, none, none, none, some false, false⟩ ∧
    default_distance_func
      ⟨none, "c", 10, none, none, none, some false, false⟩ 7
      = some (7 - 10) := by
  refine ⟨?_, ?_, ?_, ?_, ?_, ?_, ?_⟩
  · simp [CriterionTargetRange.init, range_check, check_unit_specs]
    norm_num
    rfl
  · simp [default_distance_func, distance_func_with_range]
    norm_num
  · simp [default_distance_func, distance_func_with_range]
    norm_num
  · simp [default_distance_func, distance_func_with_range]
    norm_num
  · simp
    norm_num
  · simp [CriterionTargetRange.init, range_check, check_unit_specs]
    rfl
  · simp [default_distance_func, distance_func_without_range]

/-- C4: the target-within-range invariant at construction and on every
mutation.  Construction with default unit parameters succeeds exactly for
`lo ≤ t ≤ hi`, storing target and range unchanged (no clamping); it raises
`ValueError` when the lower bound exceeds the upper and `InvalidRangeError`
when the target is outside the range; the `target` and `range` setters
validate the same invariant and on success store the assigned values
unchanged. -/
theorem C4_target_range_invariant :
    (∀ t lo hi : ℚ, lo ≤ t → t ≤ hi →
      CriterionTargetRange.init none "c" t (some (lo, hi)) none none none
        false none
        = Except.ok ⟨none, "c", t, some (lo, hi), none, none, some false,
            false⟩) ∧
    (∀ t lo hi : ℚ, hi < lo →
      CriterionTargetRange.init none "c" t (some (lo, hi)) none none none
        false none
        = Except.error CTRError.valueError) ∧
    (∀ t lo hi : ℚ, lo ≤ hi → (t < lo ∨ hi < t) →
      CriterionTargetRange.init none "c" t (some (lo, hi)) none none none
        false none
        = Except.error CTRError.invalidRange) ∧
    (∀ (c : CriterionTargetRange) (v lo hi : ℚ), c.range = some (lo, hi) →
      (v < lo ∨ hi < v) → target_set c v = (some CTRError.valueError, c)) ∧
    (∀ (c : CriterionTargetRange) (v lo hi : ℚ), c.range = some (lo, hi) →
      lo ≤ v → v ≤ hi →
      target_set c v = (none, { c with target := v })) ∧
    (∀ (c : CriterionTargetRange) (lo hi : ℚ), hi < lo →
      range_set c (some (lo, hi)) = (some CTRError.valueError, c)) ∧
    (∀ (c : CriterionTargetRange) (lo hi : ℚ), lo ≤ hi →
      (c.target < lo ∨ hi < c.target) →
      range_set c (some (lo, hi)) = (some CTRError.invalidRange, c)) ∧
    (∀ (c : CriterionTargetRange) (lo hi : ℚ), lo ≤ c.target →
      c.target ≤ hi →
      range_set c (some (lo, hi)) = (none, { c with range := some (lo, hi) })) := by
  refine ⟨?_, ?_, ?_, ?_, ?_, ?_, ?_, ?_⟩
  · intro t lo hi h1 h2
    simp [CriterionTargetRange.init, range_check, check_unit_specs,
      not_lt.2 (h1.trans h2), not_lt.2 h1, not_lt.2 h2]
    rfl
  · intro t lo hi h
    simp [CriterionTargetRange.init, range_check, h]
    rfl
  · intro t lo hi h1 h2
    simp [CriterionTargetRange.init, range_check, not_lt.2 h1]
    rcases h2 with h2 | h2 <;> simp [h2] <;> rfl
  · intro c v lo hi hr hv
    simp [target_set, hr, hv]
  · intro c v lo hi hr h1 h2
    simp [target_set, hr, not_lt.2 h1, not_lt.2 h2]
  · intro c lo hi h
    simp [range_set, h]
  · intro c lo hi h1 h2
    simp [range_set, not_lt.2 h1]
    rcases h2 with h2 | h2 <;> simp [h2]
  · intro c lo hi h1 h2
    simp [range_set, not_lt.2 (h1.trans h2), not_lt.2 h1, not_lt.2 h2]

/-- C4 witness: the construction and mutation invariant instantiated at
concrete inputs. -/
theorem C4_target_range_invariant_witness :
    CriterionTargetRange.init none "c" 10 (some (5, 15)) none none none
      false none
      = Except.ok ⟨none, "c", 10, some (5, 15), none, none, some false,
          false⟩ ∧
    CriterionTargetRange.init none "c" 10 (some (15, 5)) none none none
      false none
      = Except.error CTRError.valueError ∧
    CriterionTargetRange.init none "c" 20 (some (5, 15)) none none none
      false none
      = Except.error CTRError.invalidRange ∧
    target_set exampleCTR 20 = (some CTRError.valueError, exampleCTR) ∧
    range_set exampleCTR (some (8, 9))
      = (some CTRError.invalidRange, exampleCTR) := by
  refine ⟨?_, ?_, ?_, ?_, ?_⟩
  · exact C4_target_range_invariant.1 10 5 15 (by norm_num) (by norm_num)
  · exact C4_target_range_invariant.2.1 10 15 5 (by norm_num)
  · exact C4_target_range_invariant.2.2.1 20 5 15 (by norm_num)
      (Or.inr (by norm_num))
  · exact C4_target_range_invariant.2.2.2.1 exampleCTR 20 0 10 rfl
      (Or.inr (by norm_num))
  · exact C4_target_range_invariant.2.2.2.2.2.2.1 exampleCTR 8 9
      (by norm_num) (Or.inl (by decide))

/-- C5: the ratio comparison used by
`IamCompactHarmonizationRatioCriterion` maps subject 0 and reference 0 to
the zero-by-zero sentinel 1.0, non-zero subject over reference 0 to the
divide-by-zero sentinel positive infinity, subject 0 over non-zero
reference to 0, and elsewhere yields subject divided by reference. -/
theorem C5_ratio_zero_handling :
    iamcompact_harmonization_comparison 0 0 = RatioValue.fin 1 ∧
    iamcompact_harmonization_comparison 5 0 = RatioValue.posInf ∧
    iamcompact_harmonization_comparison 0 5 = RatioValue.fin 0 ∧
    ∀ s r : ℚ, r ≠ 0 →
      iamcompact_harmonization_comparison s r = RatioValue.fin (s / r) := by
  refine ⟨?_, ?_, ?_, ?_⟩
  · simp [iamcompact_harmonization_comparison, get_ratio_comparison]
  · simp [iamcompact_harmonization_comparison, get_ratio_comparison]
  · simp [iamcompact_harmonization_comparison, get_ratio_comparison]
  · intro s r hr
    simp [iamcompact_harmonization_comparison, get_ratio_comparison, hr]

/-- C5 witness: the generic quotient case instantiated at subject 6,
reference 3. -/
theorem C5_ratio_zero_handling_witness :
    iamcompact_harmonization_comparison 6 3 = RatioValue.fin (6 / 3) :=
  C5_ratio_zero_handling.2.2.2 6 3 (by norm_num)

/-- C6: `in_range` raises `ValueError` when no range is set, and with a
range (lower, upper) it returns true exactly when
lower ≤ value ≤ upper, both bounds inclusive. -/
theorem C6_in_range (c : CriterionTargetRange) (value : ℚ) :
    (c.range = none → in_range c value = Except.error CTRError.valueError) ∧
    (∀ lo hi : ℚ, c.range = some (lo, hi) →
      (in_range c value = Except.ok true ↔ lo ≤ value ∧ value ≤ hi)) := by
  constructor
  · intro h
    simp [in_range, h]
  · intro lo hi h
    simp [in_range, h]

/-- C6 witness: `in_range` at a concrete state and values, with both the
error case and the inclusive upper bound exercised. -/
theorem C6_in_range_witness :
    in_range ⟨none, "c", 7, none, none, none, some false, false⟩ 3
      = Except.error CTRError.valueError ∧
    in_range exampleCTR 10 = Except.ok true := by
  constructor
  · exact (C6_in_range ⟨none, "c", 7, none, none, none, some false,
      false⟩ 3).1 rfl
  · exact ((C6_in_range exampleCTR 10).2 0 10 rfl).mpr
      ⟨by norm_num, by norm_num⟩

/-- C7: `_check_unit_specs` raises `UnitNotSpecifiedError` when
`convert_value_units` is true and `criterion.unit` is missing even though
`value_unit` is specified, contradicting the claim and the class's own
docstring, which say a known source unit may come from `value_unit` or
`criterion.unit` (the code never reads `value_unit`); the remaining parts
of the claim hold: `convert_input_units` without `unit` raises, and when
`convert_value_units` is None the output conversion defaults to enabled
exactly when both `unit` and `criterion.unit` are given. -/
theorem C7_unit_spec_checks :
    check_unit_specs none (some "EJ") (some "PJ") true false
      = Except.error CTRError.unitNotSpecified ∧
    CriterionTargetRange.init none "c" 1 none (some "EJ") none (some true)
      false (some "PJ")
      = Except.error CTRError.unitNotSpecified ∧
    CriterionTargetRange.init none "c" 1 none none none none true none
      = Except.error CTRError.unitNotSpecified ∧
    (CriterionTargetRange.init (some "PJ") "c" 1 none (some "EJ") none none
      false none).map (fun c => c.convert_value_units)
      = Except.ok (some true) ∧
    (CriterionTargetRange.init none "c" 1 none (some "EJ") none none false
      none).map (fun c => c.convert_value_units)
      = Except.ok (some false) ∧
    (CriterionTargetRange.init (some "PJ") "c" 1 none none none none false
      none).map (fun c => c.convert_value_units)
      = Except.ok (some false) := by
  exact ⟨rfl, rfl, rfl, rfl, rfl, rfl⟩

/-- C9: construction accepts a degenerate range with a bound equal to the
target, but the default distance function's division is then unguarded:
with lower = target it raises `ZeroDivisionError` (modelled as `none`) for
every value ≤ target, and with upper = target for every value > target. -/
theorem C9_degenerate_range_division (t hi lo v : ℚ) :
    (t ≤ hi →
      CriterionTargetRange.init none "c" t (some (t, hi)) none none none
        false none
        = Except.ok ⟨none, "c", t, some (t, hi), none, none, some false,
            false⟩) ∧
    (lo ≤ t →
      CriterionTargetRange.init none "c" t (some (lo, t)) none none none
        false none
        = Except.ok ⟨none, "c", t, some (lo, t), none, none, some false,
            false⟩) ∧
    (v ≤ t →
      default_distance_func
        ⟨none, "c", t, some (t, hi), none, none, some false, false⟩ v
        = none) ∧
    (t < v →
      default_distance_func
        ⟨none, "c", t, some (lo, t), none, none, some false, false⟩ v
        = none) := by
  refine ⟨?_, ?_, ?_, ?_⟩
  · intro h
    simp [CriterionTargetRange.init, range_check, check_unit_specs,
      not_lt.2 h, not_lt.2 (le_refl t)]
    rfl
  · intro h
    simp [CriterionTargetRange.init, range_check, check_unit_specs,
      not_lt.2 h, not_lt.2 (le_refl t)]
    rfl
  · intro h
    simp [default_distance_func, distance_func_with_range, not_lt.2 h]
  · intro h
    simp [default_distance_func, distance_func_with_range, h]

/-- C9 witness: a range with lower bound equal to the target 10 is
accepted at construction, and the default distance then divides by zero
(raises) at value 8 ≤ target; with upper bound equal to the target it
raises at value 12 > target. -/
theorem C9_degenerate_range_division_witness :
    CriterionTargetRange.init none "c" 10 (some (10, 15)) none none none
      false none
      = Except.ok ⟨none, "c", 10, some (10, 15), none, none, some false,
          false⟩ ∧
    default_distance_func
      ⟨none, "c", 10, some (10, 15), none, none, some false, false⟩ 8
      = none ∧
    default_distance_func
      ⟨none, "c", 10, some (5, 10), none, none, some false, false⟩ 12
      = none := by
  refine ⟨?_, ?_, ?_⟩
  · exact (C9_degenerate_range_division 10 15 5 8).1 (by norm_num)
  · exact (C9_degenerate_range_division 10 15 5 8).2.2.1 (by norm_num)
  · exact (C9_degenerate_range_division 10 15 5 12).2.2.2 (by norm_num)

/-- C10: the `target` and `range` setters are atomic: whenever a setter
reports an exception, the returned state equals the prior state (the
source validates before performing any field write). -/
theorem C10_setter_atomicity (c : CriterionTargetRange) (v : ℚ)
    (rng : Option (ℚ × ℚ)) :
    ((target_set c v).1.isSome → (target_set c v).2 = c) ∧
    ((range_set c rng).1.isSome → (range_set c rng).2 = c) := by
  constructor
  · rcases hr : c.range with _ | ⟨lo, hi⟩ <;> simp [target_set, hr]
    split_ifs <;> simp
  · rcases rng with _ | ⟨lo, hi⟩ <;> simp [range_set]
    split_ifs <;> simp

/-- C10 witness: failed assignments at concrete inputs leave the object in
its prior state. -/
theorem C10_setter_atomicity_witness :
    (target_set exampleCTR 20).2 = exampleCTR ∧
    (range_set exampleCTR (some (8, 9))).2 = exampleCTR := by
  constructor
  · exact (C10_setter_atomicity exampleCTR 20 (some (8, 9))).1 (by rfl)
  · exact (C10_setter_atomicity exampleCTR 20 (some (8, 9))).2 (by rfl)

/-- Evaluation step: max over time within each region of the example
series. -/
theorem exampleSeries_time_max :
    aggregate_time groupMax exampleSeries
      = [⟨"m|s", some "r1", none, 9⟩, ⟨"m|s", some "r2", none, 9⟩] := by
  decide

/-- Evaluation step: mean over regions of the per-region time maxima. -/
theorem exampleSeries_region_mean_after_time :
    aggregate_region groupMean
      [⟨"m|s", some "r1", none, 9⟩, ⟨"m|s", some "r2", none, 9⟩]
      = [⟨"m|s", none, none, 9⟩] := by
  norm_num [aggregate_region, groupAgg, groupMean, List.dedup_cons_of_mem,
    List.dedup_cons_of_not_mem, List.dedup_nil, List.mem_dedup, List.filter,
    Function.comp]

/-- Evaluation step: mean over regions within each year of the example
series. -/
theorem exampleSeries_region_mean :
    aggregate_region groupMean exampleSeries
      = [⟨"m|s", none, some 2020, 5⟩, ⟨"m|s", none, some 2030, 5⟩] := by
  norm_num [exampleSeries, aggregate_region, groupAgg, groupMean,
    List.dedup_cons_of_mem, List.dedup_cons_of_not_mem, List.dedup_nil,
    List.mem_dedup, List.filter, Function.comp]

/-- Evaluation step: max over time of the per-year region means. -/
theorem exampleSeries_time_max_after_region :
    aggregate_time groupMax
      [⟨"m|s", none, some 2020, 5⟩, ⟨"m|s", none, some 2030, 5⟩]
      = [⟨"m|s", none, none, 5⟩] := by
  decide

/-- C2: evaluated on a concrete 2 regions x 2 years series with region
aggregation `mean` and time aggregation `max`, the source's
`aggregate_time_and_region` under `REGION_FIRST` collapses the time
dimension first and then the region dimension, yielding 9 (the mean of the
per-region maxima); the order the claim states (region reduced first, then
time, as also modelled from the spec's words in
`spec_aggregate_time_and_region`) yields 5, so the configured order named
by the enum member is not the order the code applies; the two orders do
differ for this non-commuting pair of aggregation functions. -/
theorem C2_aggregation_order :
    aggregate_time_and_region AggDimOrder.region_first groupMean groupMax
      exampleSeries = [⟨"m|s", none, none, 9⟩] ∧
    spec_aggregate_time_and_region AggDimOrder.region_first groupMean
      groupMax exampleSeries = [⟨"m|s", none, none, 5⟩] ∧
    aggregate_time_and_region AggDimOrder.time_first groupMean groupMax
      exampleSeries = [⟨"m|s", none, none, 5⟩] ∧
    ([(⟨"m|s", none, none, 9⟩ : TSRow)]
      ≠ [(⟨"m|s", none, none, 5⟩ : TSRow)]) := by
  refine ⟨?_, ?_, ?_, by decide⟩
  · show aggregate_region groupMean (aggregate_time groupMax exampleSeries)
      = [⟨"m|s", none, none, 9⟩]
    rw [exampleSeries_time_max, exampleSeries_region_mean_after_time]
  · show aggregate_time groupMax (aggregate_region groupMean exampleSeries)
      = [⟨"m|s", none, none, 5⟩]
    rw [exampleSeries_region_mean, exampleSeries_time_max_after_region]
  · show aggregate_time groupMax (aggregate_region groupMean exampleSeries)
      = [⟨"m|s", none, none, 5⟩]
    rw [exampleSeries_region_mean, exampleSeries_time_max_after_region]

/-- When the per-dimension uniqueness check succeeds, every checked
dimension has exactly one distinct value in the target, and the collected
association list maps the dimension to it. -/
theorem single_dim_values_ok (target : IamDF) :
    ∀ (dims : List String) (l : List (String × String)),
      single_dim_values target dims = Except.ok l →
      ∀ d ∈ dims, ∃ u, dimVals target d = [u] ∧ l.lookup d = some u := by
  intro dims
  induction dims with
  | nil => intro l _ d hd; cases hd
  | cons a t ih =>
    intro l h d hd
    rw [single_dim_values] at h
    rcases h0 : dimVals target a with _ | ⟨v, _ | ⟨w, ws⟩⟩ <;> rw [h0] at h
    · cases h
    · rcases h1 : single_dim_values target t with e | r <;> rw [h1] at h
      · cases h
      · cases h
        rcases List.mem_cons.mp hd with hda | hdt
        · subst hda
          exact ⟨v, h0, by simp [List.lookup]⟩
        · obtain ⟨u, hu, hlk⟩ := ih r h1 d hdt
          by_cases hda : d = a
          · subst hda
            refine ⟨v, h0, by simp [List.lookup]⟩
          · have hba : (d == a) = false := beq_eq_false_iff_ne.mpr hda
            exact ⟨u, hu, by simpa [List.lookup, hba] using hlk⟩
    · cases h

/-- C3: the reference-broadcasting step of `_make_one_comparison`.  If some
broadcast dimension has two or more distinct values in the reference, the
comparison raises instead of silently picking one; on success every
broadcast dimension had exactly one distinct reference value, and the copy
of the reference renamed to each value of that dimension present in the
subject data is contained in the broadcast result. -/
theorem C3_broadcast_uniqueness (data target : IamDF)
    (match_dims : List String) :
    ((∃ d ∈ broadcastDims data match_dims,
        2 ≤ (dimVals target d).length) →
      ∃ e, target_broadcast data target match_dims = Except.error e) ∧
    (∀ result, target_broadcast data target match_dims = Except.ok result →
      ∀ d ∈ broadcastDims data match_dims,
        ∃ u, dimVals target d = [u] ∧
          ∀ v ∈ dimVals data d,
            ∀ r ∈ (rename_dim target d u v).rows, r ∈ result.rows) := by
  constructor
  · intro hex
    rcases h : single_dim_values target (broadcastDims data match_dims)
      with e | vals
    · exact ⟨e, by simp [target_broadcast, h]⟩
    · obtain ⟨d, hd, hlen⟩ := hex
      obtain ⟨u, hu, _⟩ := single_dim_values_ok target _ vals h d hd
      rw [hu] at hlen
      simp at hlen
  · intro result hres d hd
    rcases h : single_dim_values target (broadcastDims data match_dims)
      with e | vals
    · simp [target_broadcast, h] at hres
    · rw [target_broadcast, h] at hres
      by_cases hp : (broadcast_pieces data target match_dims vals).isEmpty
      · simp [hp] at hres
      · simp only [hp, if_false, Bool.false_eq_true, if_neg] at hres
        obtain ⟨u, hu, hlk⟩ := single_dim_values_ok target _ vals h d hd
        refine ⟨u, hu, ?_⟩
        intro v hv r hr
        have hmem : rename_dim target d u v
            ∈ broadcast_pieces data target match_dims vals := by
          rw [broadcast_pieces]
          refine List.mem_flatten.mpr
            ⟨(dimVals data d).map (fun x =>
              rename_dim target d ((vals.lookup d).getD "") x), ?_, ?_⟩
          · exact List.mem_map.mpr ⟨d, hd, rfl⟩
          · exact List.mem_map.mpr ⟨v, hv, by simp [hlk]⟩
        injection hres with hres2
        subst hres2
        exact List.mem_flatten.mpr
          ⟨(rename_dim target d u v).rows,
            List.mem_map.mpr ⟨rename_dim target d u v, hmem, rfl⟩, hr⟩

/-- C3 witness: with a reference carrying two distinct models, broadcasting
over model and scenario raises; with the unambiguous reference, the single
reference value is replicated to both models present in the subject
data. -/
theorem C3_broadcast_uniqueness_witness :
    (∃ e, target_broadcast exampleData exampleTargetAmbiguous
      exampleMatchDims = Except.error e) ∧
    ∃ u, dimVals exampleTarget "model" = [u] ∧
      ∀ v ∈ dimVals exampleData "model",
        ∀ r ∈ (rename_dim exampleTarget "model" u v).rows,
          r ∈ exampleBroadcastResult.rows := by
  constructor
  · exact (C3_broadcast_uniqueness exampleData exampleTargetAmbiguous
      exampleMatchDims).1 ⟨"model", by decide, by decide⟩
  · exact (C3_broadcast_uniqueness exampleData exampleTarget
      exampleMatchDims).2 exampleBroadcastResult (by rfl) "model" (by decide)

/-- Looking up a key in an association list that pairs each element of a
list with a function of itself yields that function value, for keys present
in the list. -/
theorem lookup_pair_map {β : Type} (g : String → β) (l : List String)
    (v : String) (hv : v ∈ l) :
    (l.map (fun x => (x, g x))).lookup v = some (g v) := by
  induction l with
  | nil => cases hv
  | cons a t ih =>
    by_cases hva : v = a
    · subst hva; simp [List.lookup]
    · have hba : (v == a) = false := beq_eq_false_iff_ne.mpr hva
      rcases List.mem_cons.mp hv with h | h
      · exact absurd h hva
      · simp [List.lookup, hba, ih h]

/-- Looking up a key absent from the underlying list yields `none`. -/
theorem lookup_pair_map_none {β : Type} (g : String → β) (l : List String)
    (v : String) (hv : v ∉ l) :
    (l.map (fun x => (x, g x))).lookup v = none := by
  induction l with
  | nil => simp [List.lookup]
  | cons a t ih =>
    have hva : v ≠ a := fun h => hv (h ▸ List.mem_cons_self a t)
    have hba : (v == a) = false := beq_eq_false_iff_ne.mpr hva
    have ht : v ∉ t := fun h => hv (List.mem_cons_of_mem a h)
    simp [List.lookup, hba, ih ht]

/-- When every variable shared by the two dataframes carries identical
units, the differing-variables list of `make_consistent_units` is empty. -/
theorem differing_vars_nil (df mdf : IamDF)
    (h : ∀ v ∈ dimVals df "variable", v ∈ dimVals mdf "variable" →
      mkUnitVal (unitsOf df v) = mkUnitVal (unitsOf mdf v)) :
    differing_vars df mdf = [] := by
  rw [differing_vars, List.map_eq_nil_iff, List.filter_eq_nil_iff]
  intro p hp
  obtain ⟨v, hv, rfl⟩ := List.mem_map.mp hp
  by_cases hm : v ∈ dimVals mdf "variable"
  · simp only [unit_mapping, lookup_pair_map _ _ v hm]
    simp [h v hv hm]
  · simp only [unit_mapping, lookup_pair_map_none _ _ v hm]
    simp

/-- C8: when every variable shared by the two dataframes carries identical
units, `make_consistent_units` returns the subject dataframe unchanged (no
conversion is applied), and hence the `pyam_series_comparison` decorator
with `match_units` enabled applies the raw comparison function to the
numerically unchanged series. -/
theorem C8_unit_reconciliation_identity (convert : ℚ → String → String → ℚ)
    (df mdf : IamDF)
    (h : ∀ v ∈ dimVals df "variable", v ∈ dimVals mdf "variable" →
      mkUnitVal (unitsOf df v) = mkUnitVal (unitsOf mdf v)) :
    make_consistent_units convert df mdf = Except.ok df ∧
    ∀ (α : Type) (func : List IamRow → List IamRow → α),
      pyam_series_comparison func true convert df mdf
        = Except.ok (func (as_pandas_series df) (as_pandas_series mdf)) := by
  have hd : differing_vars df mdf = [] := differing_vars_nil df mdf h
  have h1 : make_consistent_units convert df mdf = Except.ok df := by
    rw [make_consistent_units, hd]
    show Except.ok ⟨df.dimensions, (filter_out_vars df []).rows
      ++ ([] : List (List IamRow)).flatten⟩ = Except.ok df
    simp [filter_out_vars]
  refine ⟨h1, fun α func => ?_⟩
  rw [pyam_series_comparison]
  simp only [if_true]
  rw [h1]

/-- C8 witness: the identity at a concrete unit-consistent pair of
dataframes, and the decorated comparison applied there. -/
theorem C8_unit_reconciliation_identity_witness :
    make_consistent_units (fun q _ _ => q * 1000) exampleData exampleTarget
      = Except.ok exampleData ∧
    pyam_series_comparison
      (fun a b => (a.map IamRow.value, b.map IamRow.value)) true
      (fun q _ _ => q * 1000) exampleData exampleTarget
      = Except.ok (([3, 4] : List ℚ), ([5] : List ℚ)) := by
  have h := C8_unit_reconciliation_identity (fun q _ _ => q * 1000)
    exampleData exampleTarget (by decide)
  exact ⟨h.1, (h.2 _ _).trans (by rfl)⟩

end Theorems

end IamCompactVetting
